import Mathlib

/-!
Verification of the chronic-disease prediction repository.

This file shallowly embeds the parts of the repository that the
specification's claims are about:

* the HTTP prediction service (`ML_Models/ml_backend/main.py`):
  categorical encoding of user-friendly strings, the per-disease
  preprocessing branches (heart / diabetes / generic), the label-encoder
  fallback for unseen categories, scaling, and the `POST
  /predict/disease/{model_type}` endpoint;
* the per-disease training/interactive scripts, in particular the
  feedback-append and retraining code of the CKD, Asthma, Arthritis and
  COPD scripts.

Numeric values are modelled as rationals (the scripts use Python floats,
but no claim depends on float rounding); pandas single-row DataFrames are
modelled as ordered association lists from column name to cell value;
the opaque third-party classifier is modelled as a pair of functions
(probability, hard label) because the repository treats it as a black
box; fallible Python code (KeyError, ValueError, sklearn errors) is
modelled with `Except`.
-/

/-- A cell value of a pandas DataFrame / a JSON feature value: a number,
a string, a boolean, or a missing value (NaN). -/
inductive FValue where
  | num (q : ℚ)
  | str (s : String)
  | bool (b : Bool)
  | null
deriving DecidableEq, Repr

/-- A single-row DataFrame / feature mapping: an ordered association list
from column name to value (pandas and Python dicts preserve insertion
order, which matters because scalers are applied positionally). -/
abbrev Row := List (String × FValue)

/-- Look up a column's value in a row. -/
def rlookup (r : Row) (k : String) : Option FValue :=
  (r.find? (fun p => p.1 == k)).map (·.2)

/-- Whether a column is present (`col in df.columns`). -/
def rhas (r : Row) (k : String) : Bool :=
  (rlookup r k).isSome

/-- Set a column's value, keeping its position if present, else
appending it (pandas `df[col] = v` / dict insertion). -/
def rset : Row → String → FValue → Row
  | [], k, v => [(k, v)]
  | (k', v') :: rest, k, v =>
    if k' == k then (k, v) :: rest else (k', v') :: rset rest k v

/-- Python `str.strip()`: drop leading and trailing whitespace. -/
def pyStrip (s : String) : String :=
  ⟨((s.data.dropWhile Char.isWhitespace).reverse.dropWhile Char.isWhitespace).reverse⟩

/-- Python `str.lower()`. -/
def pyLower (s : String) : String :=
  ⟨s.data.map Char.toLower⟩

/-- Python `str.capitalize()`: first character uppercased, the rest
lowercased. -/
def pyCapitalize (s : String) : String :=
  match s.data with
  | [] => s
  | c :: cs => ⟨Char.toUpper c :: cs.map Char.toLower⟩

/-- Value of a list of decimal digit characters. -/
def digitsVal (cs : List Char) : ℕ :=
  cs.foldl (fun n c => 10 * n + (c.toNat - 48)) 0

/-- Python `str.isdigit()` (restricted to ASCII digits, which is what the
inputs in question contain). -/
def isDigitStr (s : String) : Bool :=
  !s.data.isEmpty && s.data.all Char.isDigit

/-- Python `int(s)` on a trimmed string: optional sign followed by digits,
`none` when the cast raises `ValueError`. -/
def pyInt? (s : String) : Option ℤ :=
  let t := pyStrip s
  match t.data with
  | '-' :: cs => if !cs.isEmpty && cs.all Char.isDigit then some (-(digitsVal cs : ℤ)) else none
  | '+' :: cs => if !cs.isEmpty && cs.all Char.isDigit then some (digitsVal cs : ℤ) else none
  | cs => if !cs.isEmpty && cs.all Char.isDigit then some (digitsVal cs : ℤ) else none

/-- Python `float(s)` for plain decimal literals (`45`, `-3.25`, `4.`,
`.5`); `none` when the conversion raises `ValueError`.  Exponent forms
are not needed by any claim. -/
def pyFloat? (s : String) : Option ℚ :=
  let t := pyStrip s
  let (sign, body) : ℚ × List Char :=
    match t.data with
    | '-' :: cs => (-1, cs)
    | '+' :: cs => (1, cs)
    | cs => (1, cs)
  match body.splitOn '.' with
  | [as] =>
    if !as.isEmpty && as.all Char.isDigit then some (sign * digitsVal as) else none
  | [as, bs] =>
    if (as.isEmpty && bs.isEmpty) || !(as.all Char.isDigit && bs.all Char.isDigit) then none
    else some (sign * ((digitsVal as : ℚ) + (digitsVal bs : ℚ) / (10 ^ bs.length)))
  | _ => none

/-- Index of a value in a list (first occurrence), used to model
`sklearn.LabelEncoder.transform`, whose output is the index of the value
in the fitted (sorted) `classes_` array. -/
def idxOfVal (v : FValue) : List FValue → Option ℕ
  | [] => none
  | c :: cs => if c = v then some 0 else (idxOfVal v cs).map (· + 1)

/-!
## The HTTP prediction service (`ML_Models/ml_backend/main.py`)
-/

/-- The per-disease entries of `MODEL_CONFIGS` that the prediction code
reads (`features`, `categorical_cols`, `zero_cols`); the artifact file
names and paths concern the filesystem and are abstracted by the
artifact-loading function below. -/
structure DiseaseConfig where
  features : List String
  categoricalCols : List String
  zeroCols : List String
deriving DecidableEq, Repr

def heartConfig : DiseaseConfig :=
  { features := ["age", "sex", "trestbps", "chol", "fbs", "thalch"]
    categoricalCols := ["sex", "fbs"]
    zeroCols := [] }

def diabetesConfig : DiseaseConfig :=
  { features := ["Glucose", "BloodPressure", "SkinThickness", "Insulin", "BMI",
                 "DiabetesPedigreeFunction", "Age"]
    categoricalCols := []
    zeroCols := ["Glucose", "BloodPressure", "SkinThickness", "Insulin", "BMI"] }

def hypertensionConfig : DiseaseConfig :=
  { features := ["Systolic_BP", "Diastolic_BP", "Heart_Rate", "BMI", "Age", "Gender"]
    categoricalCols := ["Gender"]
    zeroCols := ["Systolic_BP", "Diastolic_BP", "Heart_Rate", "BMI"] }

def ckdConfig : DiseaseConfig :=
  { features := ["age", "bp", "bgr", "bu", "sc", "hemo", "htn"]
    categoricalCols := ["htn"]
    zeroCols := [] }

def asthmaConfig : DiseaseConfig :=
  { features := ["Age", "Gender", "BMI", "Smoking", "Wheezing", "ShortnessOfBreath",
                 "Coughing", "ExerciseInduced"]
    categoricalCols := ["Gender", "Smoking", "Wheezing", "ShortnessOfBreath",
                        "Coughing", "ExerciseInduced"]
    zeroCols := [] }

def arthritisConfig : DiseaseConfig :=
  { features := ["Pain_Level", "Joint_Mobility", "Stiffness", "Swelling", "Age", "Gender",
                 "Pain_Stiffness", "Pain_Swelling", "Stiffness_Swelling"]
    categoricalCols := ["Gender"]
    zeroCols := ["Pain_Level", "Joint_Mobility", "Stiffness", "Swelling"] }

def copdConfig : DiseaseConfig :=
  { features := ["Age", "Oxygen_Level", "Oxygen_Low", "Cough_SOB", "Cough_Fatigue",
                 "Gender", "Smoking_History", "Cough", "Shortness_of_Breath", "Fatigue"]
    categoricalCols := ["Gender", "Smoking_History", "Cough", "Shortness_of_Breath", "Fatigue"]
    zeroCols := [] }

def liverConfig : DiseaseConfig :=
  { features := ["Age", "BMI", "ALT", "AST", "Bilirubin", "Fatigue", "Jaundice",
                 "Nausea", "Abdominal_Pain"]
    categoricalCols := ["Fatigue", "Jaundice", "Nausea", "Abdominal_Pain"]
    zeroCols := [] }

/-- `MODEL_CONFIGS`, in source order. -/
def modelConfigs : List (String × DiseaseConfig) :=
  [("heart", heartConfig), ("diabetes", diabetesConfig), ("hypertension", hypertensionConfig),
   ("ckd", ckdConfig), ("asthma", asthmaConfig), ("arthritis", arthritisConfig),
   ("copd", copdConfig), ("liver", liverConfig)]

def configLookup (mt : String) : Option DiseaseConfig :=
  (modelConfigs.find? (fun p => p.1 == mt)).map (·.2)

/-- The configured disease keys (`list(MODEL_CONFIGS.keys())`). -/
def modelKeys : List String := modelConfigs.map (·.1)

/-- The user-friendly response dictionary of `encode_categorical_features`
(`main.py` lines 239-269).  Python dict literals keep the last binding of
a repeated key; every repeated key in the source is bound to the same
value, so a first-match association list is equivalent. -/
def uiMapping : List (String × ℚ) :=
  [("Male", 1), ("Female", 0),
   ("Yes", 1), ("No", 0), ("Yes, swelling", 1), ("No swelling", 0),
   ("None", 0), ("Never", 0), ("Normal", 0), ("Good", 0), ("No pain", 0),
   ("No cough", 0), ("No fatigue", 0),
   ("Mild", 1), ("Sometimes", 1), ("Rarely", 1), ("Light", 1), ("Lightly active", 1),
   ("Mild pain", 1), ("Mild cough", 1),
   ("Moderate", 2), ("Often", 2), ("Moderately active", 2), ("Moderate pain", 2),
   ("Moderate cough", 2),
   ("Severe", 3), ("Always", 3), ("Very active", 3), ("Severe pain", 3), ("Severe cough", 3),
   ("Never smoked", 0), ("Used to smoke", 1), ("Light smoker", 2), ("Heavy smoker", 3),
   ("Currently smoke", 3),
   ("No family history", 0), ("Some relatives", 1), ("Close relatives", 2),
   ("Parents or siblings", 3), ("Parents/Siblings", 3),
   ("Not active", 0), ("Sedentary", 0),
   ("Normal BP", 0), ("Slightly high", 1), ("High BP", 2), ("Very high BP", 3),
   ("No allergies", 0), ("Mild allergies", 1), ("Moderate allergies", 2),
   ("Severe allergies", 3),
   ("Low salt diet", 0), ("Normal amount", 1), ("High salt diet", 2)]

/-- One value of `encode_categorical_features`: heart categorical columns
are passed through untouched for the saved encoders; mapped strings become
their numeric code; all-digit strings are cast to `int`; everything else
is passed through. -/
def encodeOneVal (mt k : String) (v : FValue) : FValue :=
  if mt == "heart" && (((configLookup "heart").map (·.categoricalCols)).getD []).contains k then
    v
  else
    match v with
    | .str s =>
      match uiMapping.find? (fun p => p.1 == s) with
      | some p => .num p.2
      | none => if isDigitStr s then .num (digitsVal s.data) else .str s
    | v => v

/-- `encode_categorical_features(features, model_type)`. -/
def encodeCatFeatures (mt : String) (row : Row) : Row :=
  row.map (fun kv => (kv.1, encodeOneVal mt kv.1 kv.2))

/-- Fitted `LabelEncoder` state: its `classes_` array (sorted vocabulary). -/
abbrev EncClasses := List FValue

/-- `LabelEncoder.transform` on one value: the index of the value in
`classes_`, or the `ValueError` with the `previously unseen labels`
message. -/
def leTransform (classes : EncClasses) (v : FValue) : Except String ℕ :=
  match idxOfVal v classes with
  | some i => .ok i
  | none => .error "y contains previously unseen labels"

/-- Fitted `SimpleImputer(strategy=median)` state: the per-column medians,
in the column order the imputer was fitted on. -/
abbrev ImputerStats := List (String × ℚ)

/-- `SimpleImputer.transform` on one cell: only missing values (NaN) are
replaced by the fitted median; any other value, including a zero
sentinel, is left untouched. -/
def imputeVal (m : ℚ) : FValue → FValue
  | .null => .num m
  | v => v

/-- `df[cols] = imputer.transform(df[cols])`: a `KeyError` if a selected
column is absent, sklearn's feature-count mismatch error if the selected
columns are not the fitted ones, and otherwise the per-column median
substitution of missing values. -/
def imputeCols (imp : ImputerStats) (cols : List String) (df : Row) : Except String Row :=
  if cols.any (fun c => !rhas df c) then .error "KeyError: missing imputation column"
  else if cols ≠ imp.map (·.1) then .error "SimpleImputer feature mismatch"
  else .ok (imp.foldl (fun d p =>
    match rlookup d p.1 with
    | some v => rset d p.1 (imputeVal p.2 v)
    | none => d) df)

/-- Fitted `StandardScaler` state: the per-column `(mean, scale)` pairs in
fit order; `transform` is positional. -/
abbrev ScalerStats := List (ℚ × ℚ)

/-- `scaler.transform` on one row: sklearn raises when the feature count
differs from fit time, otherwise standardizes each coordinate. -/
def scaleList (stats : ScalerStats) (xs : List ℚ) : Except String (List ℚ) :=
  if xs.length = stats.length then
    .ok ((xs.zip stats).map (fun p => (p.1 - p.2.1) / p.2.2))
  else .error "X has a wrong number of features for StandardScaler"

/-- `df[features]` column selection: `KeyError` when a column is missing. -/
def selectCols (df : Row) : List String → Except String (List FValue)
  | [] => .ok []
  | c :: cs =>
    match rlookup df c with
    | none => .error ("KeyError: " ++ c)
    | some v => (selectCols df cs).map (fun vs => v :: vs)

/-- Conversion of a cell to a float for the numeric pipeline: numbers and
booleans convert; a string raises (pandas/sklearn `could not convert
string to float`).  NaN would propagate as a float through scaling and
into the opaque model; no claim exercises that path, so it is modelled
as a distinguished error. -/
def cellToQ : FValue → Except String ℚ
  | .num q => .ok q
  | .bool b => .ok (if b then 1 else 0)
  | .str s => .error ("could not convert string to float: " ++ s)
  | .null => .error "NaN reached numeric conversion (not modelled)"

/-- The opaque third-party classifier, as the prediction code sees it:
`predict_proba(x)[0][1]` and `predict(x)[0]` are two independent calls
whose results the service passes through without relating them. -/
structure PModel where
  probaFn : List ℚ → ℚ
  labelFn : List ℚ → ℤ

/-- The artifact bundle returned by `load_model_artifacts`: the model is
always present (otherwise the loader returns `None`), the preprocessing
objects are present when the corresponding files were configured and
found. -/
structure Artifacts where
  model : PModel
  scaler : Option ScalerStats
  encoders : Option (List (String × EncClasses))
  numImputer : Option ImputerStats

/-- Whether an encoder class is an `int` in Python's sense
(`isinstance(c, (int, np.integer))`; Python `bool` is an `int`).  The
embedding identifies Python ints with denominator-1 rationals. -/
def isIntClass : FValue → Bool
  | .num q => q.den == 1
  | .bool _ => true
  | _ => false

def isStrClass : FValue → Bool
  | .str _ => true
  | _ => false

/-- `_coerce_for_encoder`, numeric-classes case (`main.py` 308-324). -/
def coerceNumericVal (v : FValue) : FValue :=
  match v with
  | .str s =>
    let lv := pyLower (pyStrip s)
    if lv == "male" || lv == "m" || lv == "yes" || lv == "true" || lv == "1" then .num 1
    else if lv == "female" || lv == "f" || lv == "no" || lv == "false" || lv == "0" then .num 0
    else match pyInt? s with
      | some n => .num n
      | none => .str s
  | .bool b => .num (if b then 1 else 0)
  | v => v

/-- `_coerce_for_encoder`, string-classes case (`main.py` 326-333); the
source indexes `classes[1]`/`classes[0]` without a bounds check, an
`IndexError` that cannot arise for the two-class encoders in use and is
approximated by returning the value unchanged. -/
def coerceStringVal (classes : EncClasses) (v : FValue) : FValue :=
  match v with
  | .bool b => .str (if b then "True" else "False")
  | .num q => if q.den == 1 then (if q = 1 then classes.getD 1 v else classes.getD 0 v) else v
  | v => v

/-- `_coerce_for_encoder(col, encoder, series)` on the single row. -/
def coerceForEncoder (classes : EncClasses) (v : FValue) : FValue :=
  if classes.isEmpty then v
  else if classes.all isIntClass then coerceNumericVal v
  else if classes.all isStrClass then coerceStringVal classes v
  else v

/-- The heart branch's per-column encode step: coerce, transform, and on
the `previously unseen labels` `ValueError` fall back to the code 0 with
a warning instead of raising (`main.py` 336-348).  The returned flag
records whether the warning was printed. -/
def heartEncodeCol (classes : EncClasses) (v : FValue) : FValue × Bool :=
  match leTransform classes (coerceForEncoder classes v) with
  | .ok i => (.num i, false)
  | .error _ => (.num 0, true)

/-- The heart branch's categorical-encode loop over
`config["categorical_cols"]`: columns absent from the row are skipped;
a column missing from the saved encoder dict would be an uncaught
`KeyError`. -/
def heartEncodeCols (encs : List (String × EncClasses)) :
    List String → Row → Except String (Row × List String)
  | [], df => .ok (df, [])
  | c :: cs, df =>
    match rlookup df c with
    | none => heartEncodeCols encs cs df
    | some v =>
      match (encs.find? (fun p => p.1 == c)).map (·.2) with
      | none => .error ("KeyError: " ++ c)
      | some classes =>
        let r := heartEncodeCol classes v
        (heartEncodeCols encs cs (rset df c r.1)).map
          (fun p => (p.1, (if r.2 then [c] else []) ++ p.2))

/-- The generic branch's per-column encode step with the same
unseen-label fallback (`main.py` 396-408). -/
def genericEncodeCol (classes : EncClasses) (v : FValue) : FValue × Bool :=
  match leTransform classes v with
  | .ok i => (.num i, false)
  | .error _ => (.num 0, true)

/-- The generic branch's loop over the saved encoder dictionary: each
encoder is applied to its column when present, with the fallback code 0
and a warning on unseen labels; it cannot raise. -/
def applyEncodersGeneric (encs : List (String × EncClasses)) (df : Row) : Row × List String :=
  encs.foldl (fun acc ce =>
    match rlookup acc.1 ce.1 with
    | none => acc
    | some v =>
      let r := genericEncodeCol ce.2 v
      (rset acc.1 ce.1 r.1, if r.2 then acc.2 ++ [ce.1] else acc.2)) (df, [])

/-- The heart-disease preprocessing branch of `make_prediction`
(`main.py` 298-359): encoder coercion and encoding with unseen-label
fallback, numeric imputation over the non-categorical features, then
scaling of `df[config.features]`. -/
def heartProcess (cfg : DiseaseConfig) (a : Artifacts) (encoded : Row) :
    Except String (List ℚ) := do
  let p ← match a.encoders with
    | some encs => heartEncodeCols encs cfg.categoricalCols encoded
    | none => .ok (encoded, [])
  let df1 := p.1
  let df2 ← match a.numImputer with
    | some imp =>
      imputeCols imp (cfg.features.filter (fun c => !cfg.categoricalCols.contains c)) df1
    | none => .ok df1
  let cells ← selectCols df2 cfg.features
  let xs ← cells.mapM cellToQ
  match a.scaler with
  | some st => scaleList st xs
  | none => .ok xs

/-- The frontend-to-training key remapping of the diabetes branch
(`main.py` 363-368). -/
def diabetesKeyMapping : List (String × String) :=
  [("glucose", "Glucose"), ("bloodPressure", "BloodPressure"),
   ("skinThickness", "SkinThickness"), ("insulin", "Insulin"),
   ("bmi", "BMI"), ("diabetesPedigreeFunction", "DiabetesPedigreeFunction"),
   ("age", "Age")]

/-- The diabetes preprocessing branch of `make_prediction` (`main.py`
361-383): remap keys, keep only configured features, impute the
zero-sentinel columns that are present, and scale the whole row in its
insertion order (`scaler.transform(df)` with no column selection). -/
def diabetesProcess (cfg : DiseaseConfig) (a : Artifacts) (encoded : Row) :
    Except String (List ℚ) := do
  let mapped : Row := encoded.foldl (fun acc kv =>
    let k' := ((diabetesKeyMapping.find? (fun p => p.1 == kv.1)).map (·.2)).getD kv.1
    if cfg.features.contains k' then rset acc k' kv.2 else acc) []
  let df ← match a.numImputer with
    | some imp =>
      let avail := cfg.zeroCols.filter (fun c => rhas mapped c)
      if avail.isEmpty then .ok mapped else imputeCols imp avail mapped
    | none => .ok mapped
  let xs ← (df.map (·.2)).mapM cellToQ
  match a.scaler with
  | some st => scaleList st xs
  | none => .ok xs

/-- Multiplication of two cells, for the arthritis interaction columns. -/
def mulCell : FValue → FValue → Except String FValue
  | .num a, .num b => .ok (.num (a * b))
  | .num a, .bool b => .ok (.num (a * (if b then 1 else 0)))
  | .bool a, .num b => .ok (.num ((if a then 1 else 0) * b))
  | .bool a, .bool b => .ok (.num ((if a then 1 else 0) * (if b then 1 else 0)))
  | _, _ => .error "unsupported operand type for interaction product"

/-- `df[dst] = df[c1] * df[c2]` with a `KeyError` on a missing source. -/
def mulCols (df : Row) (c1 c2 dst : String) : Except String Row :=
  match rlookup df c1, rlookup df c2 with
  | some v1, some v2 => (mulCell v1 v2).map (rset df dst)
  | _, _ => .error "KeyError: interaction source column missing"

/-- The generic preprocessing branch of `make_prediction` (`main.py`
385-420): imputation of the configured zero-sentinel columns that are
present, encoding with the unseen-label fallback, the arthritis
interaction features, then scaling of `df[config.features]`. -/
def genericProcess (mt : String) (cfg : DiseaseConfig) (a : Artifacts) (encoded : Row) :
    Except String (List ℚ) := do
  let df1 ← match a.numImputer with
    | some imp =>
      let avail := cfg.zeroCols.filter (fun c => rhas encoded c)
      if avail.isEmpty then .ok encoded else imputeCols imp avail encoded
    | none => .ok encoded
  let df2 := match a.encoders with
    | some encs => (applyEncodersGeneric encs df1).1
    | none => df1
  let df3 ←
    if mt == "arthritis" then do
      let d1 ← mulCols df2 "Pain_Level" "Stiffness" "Pain_Stiffness"
      let d2 ← mulCols d1 "Pain_Level" "Swelling" "Pain_Swelling"
      mulCols d2 "Stiffness" "Swelling" "Stiffness_Swelling"
    else .ok df2
  let cells ← selectCols df3 cfg.features
  let xs ← cells.mapM cellToQ
  match a.scaler with
  | some st => scaleList st xs
  | none => .ok xs

/-- `make_prediction(model_type, features)` (`main.py` 287-431): encode
the user-friendly values, run the per-disease branch, and return
`(float(pred_prob), int(prediction), float(pred_prob))` — the positive
class probability, the hard label, and the probability again as the
confidence. -/
def makePrediction (mt : String) (a : Artifacts) (features : Row) :
    Except String (ℚ × ℤ × ℚ) :=
  match configLookup mt with
  | none => .error ("KeyError: " ++ mt)
  | some cfg =>
    (if mt == "heart" then heartProcess cfg a (encodeCatFeatures mt features)
     else if mt == "diabetes" then diabetesProcess cfg a (encodeCatFeatures mt features)
     else genericProcess mt cfg a (encodeCatFeatures mt features)).map
      (fun s => (a.model.probaFn s, a.model.labelFn s, a.model.probaFn s))

/-- An HTTP response of the prediction endpoint: either the
`PredictionResponse` body or an `HTTPException` with a status code and a
detail message. -/
inductive HTTPResp where
  | ok (riskProbability : ℚ) (prediction : ℤ) (confidence : ℚ)
  | err (status : ℕ) (detail : String)
deriving DecidableEq, Repr

/-- `POST /predict/disease/{model_type}` (`main.py` 441-454),
parameterized by the outcome of `load_model_artifacts` (filesystem and
cache): 404 when the disease key is not configured; a missing artifact
bundle raises the `ValueError` of `make_prediction` line 291; every
exception is converted to a 500 whose detail is the exception message. -/
def predictDisease (load : String → Option Artifacts) (mt : String) (features : Row) :
    HTTPResp :=
  if mt ∈ modelKeys then
    match (match load mt with
           | none => Except.error ("Model artifacts not available for " ++ mt)
           | some a => makePrediction mt a features) with
    | .error e => .err 500 e
    | .ok r => .ok r.1 r.2.1 r.2.2
  else .err 404 ("Model " ++ mt ++ " not found")

/-!
## The diabetes training script (`model/Diabetes disease ML/model.py`)

Its zero-sentinel handling (lines 20-25): zeros in the designated
columns are first replaced by NaN and the median imputer is then fitted
and applied, so a zero-sentinel in the *training* pipeline does become
the fitted median.  The serving path above applies only
`num_imputer.transform`, which replaces NaN alone.
-/

/-- `df[col] = df[col].replace(0, np.nan)` over the zero-sentinel
columns. -/
def replaceZeroWithNull (zeroCols : List String) (r : Row) : Row :=
  r.map (fun kv =>
    if zeroCols.contains kv.1 && kv.2 == FValue.num 0 then (kv.1, FValue.null) else kv)

/-- The training-side zero handling of the diabetes script on one row,
with the imputer's fitted medians given: replace zeros by NaN, then
median-impute (`model.py` lines 20-25). -/
def diabetesTrainImputeRow (medians : ImputerStats) (r : Row) : Except String Row :=
  imputeCols medians diabetesConfig.zeroCols (replaceZeroWithNull diabetesConfig.zeroCols r)

/-!
## The CKD script (`ML_Models/Chronic Kidney disease(CKD) ML/model.py`)
-/

def ckdNumericCols : List String := ["age", "bp", "bgr", "bu", "sc", "hemo"]

/-- The feedback-append slice of the CKD `predict_from_user` (lines
136-156): impute the numeric columns of the user row, scale the whole
row, predict, then append the row to the feedback ledger with
`user_df[target_col] = prediction` — the target column is set to the
model's own prediction; no ground-truth label is ever solicited. -/
def ckdPredictAndAppend (m : PModel) (scaler : ScalerStats) (imp : ImputerStats)
    (ledger : List Row) (userRow : Row) : Except String (ℤ × List Row) :=
  match imputeCols imp ckdNumericCols userRow with
  | .error e => .error e
  | .ok df =>
    match (df.map (fun kv => kv.2)).mapM cellToQ with
    | .error e => .error e
    | .ok xs =>
      match scaleList scaler xs with
      | .error e => .error e
      | .ok scaled =>
        .ok (m.labelFn scaled, ledger ++ [rset df "classification" (.num (m.labelFn scaled))])

/-- The number of rows whose target column holds the numeric label `q`
(`Counter(y)[q]`; a missing key counts 0). -/
def labelCount (tcol : String) (q : ℚ) (rows : List Row) : ℕ :=
  (rows.filter (fun r => rlookup r tcol == some (.num q))).length

/-- What a retrain of the CKD/Asthma shape actually does with the data:
which rows the classifier is fitted on, which rows are held out, which
positive-class weight is in effect during the fit, and the neg/pos
ratio the script recomputes. -/
structure FlatRetrain where
  trainRows : List Row
  heldOutRows : List Row
  weightUsed : ℚ
  weightRecomputed : ℚ
deriving DecidableEq, Repr

/-- The CKD retraining block (`model.py` lines 158-167): the original
and feedback rows are concatenated and the scaler and classifier are
re-fitted on the whole concatenation — there is no train/held-out
split.  `scale_pos_weight_comb = counter_comb[0]/max(counter_comb[1],1)`
is computed but never passed to the model, whose constructor-time
`scale_pos_weight` stays in effect for `model.fit`. -/
def ckdRetrain (origRows feedbackRows : List Row) (modelWeight : ℚ) : FlatRetrain :=
  let combined := origRows ++ feedbackRows
  let c0 := labelCount "classification" 0 combined
  let c1 := labelCount "classification" 1 combined
  { trainRows := combined
    heldOutRows := []
    weightUsed := modelWeight
    weightRecomputed := (c0 : ℚ) / (max c1 1 : ℕ) }

/-- The Asthma retraining block (`model/Asthma ML/model.py` lines
156-167), of the same shape: fit on the whole concatenation, recompute
`scale_pos_weight_comb` without using it
(`model.fit(X_comb_scaled, y_comb, sample_weight=None)`). -/
def asthmaRetrain (origRows feedbackRows : List Row) (modelWeight : ℚ) : FlatRetrain :=
  let combined := origRows ++ feedbackRows
  let c0 := labelCount "Diagnosis" 0 combined
  let c1 := labelCount "Diagnosis" 1 combined
  { trainRows := combined
    heldOutRows := []
    weightUsed := modelWeight
    weightRecomputed := (c0 : ℚ) / (max c1 1 : ℕ) }

/-!
## The Arthritis and COPD interactive loops

(`ML_Models/Arthritis_ML/data/model.py` and
`model/COPD_ML/data/model.py`.)  Their retraining blocks are structurally
identical (Arthritis 221-236, COPD 243-256): deduplicate the
concatenation, stratified 80/20 split, re-fit the in-memory scaler on
the train partition, re-fit the classifier, and only then persist the
model with `joblib.dump(model, MODEL_FILE)`.  The split and the two
library fits are opaque, fallible third-party calls and are passed in
as parameters.
-/

/-- The persisted artifact files of one disease script: the model, the
scaler, the encoder map and the numeric imputer, each dumped to its own
fixed path. -/
structure ArtifactStore where
  modelFile : PModel
  scalerFile : ScalerStats
  encodersFile : List (String × EncClasses)
  imputerFile : ImputerStats

/-- A retraining failure: the stratified split raising on degenerate
class structure, or any other library error. -/
inductive RetrainErr where
  | insufficientClassDiversity
  | libraryError (msg : String)
deriving DecidableEq, Repr

def retrainErrMsg : RetrainErr → String
  | .insufficientClassDiversity => "InsufficientClassDiversity"
  | .libraryError m => m

/-- `pd.concat([...]).drop_duplicates()`: keep the first occurrence of
each row. -/
def dedupRows (rows : List Row) : List Row :=
  rows.foldl (fun acc r => if acc.contains r then acc else acc ++ [r]) []

/-- The outcome of one retraining block of the Arthritis/COPD shape. -/
structure RetrainResult where
  persisted : ArtifactStore
  memScalerAfter : ScalerStats
  memModelAfter : PModel
  errorOut : Option RetrainErr

/-- One retraining block of the Arthritis/COPD shape.  `split` is
`train_test_split(..., test_size=0.2, stratify=y)`, `scalerFit` the
in-memory `scaler.fit_transform` (the refitted scaler is *not*
re-persisted), `fit` the classifier's `model.fit`; the persisted model
file is written (`joblib.dump`) only after every fallible step has
succeeded, so a failure anywhere leaves every persisted artifact as it
was. -/
def feedbackRetrain (split : List Row → Except RetrainErr (List Row × List Row))
    (fit : List Row → Except RetrainErr PModel)
    (scalerFit : List Row → ScalerStats)
    (store : ArtifactStore) (memScaler : ScalerStats) (memModel : PModel)
    (origRows feedbackRows : List Row) : RetrainResult :=
  match split (dedupRows (origRows ++ feedbackRows)) with
  | .error e => ⟨store, memScaler, memModel, some e⟩
  | .ok (trainPart, _testPart) =>
    match fit trainPart with
    | .error e => ⟨store, scalerFit trainPart, memModel, some e⟩
    | .ok m' => ⟨{ store with modelFile := m' }, scalerFit trainPart, m', none⟩

/-- Modelled from the spec: the stratified 80/20 splitter itself is
third-party library code absent from the repository; per the spec's
error taxonomy it fails with `InsufficientClassDiversity` when the
combined data carries fewer than two distinct labels, and otherwise
yields a fixed-proportion 80/20 partition.  Used only to instantiate
the split parameter at concrete inputs. -/
def specStratSplit (tcol : String) (rows : List Row) :
    Except RetrainErr (List Row × List Row) :=
  if ((rows.map (fun r => rlookup r tcol)).dedup).length < 2 then
    .error .insufficientClassDiversity
  else .ok (rows.take (4 * rows.length / 5), rows.drop (4 * rows.length / 5))

/-- `m.get(k, d)` over an association list. -/
def mapGetD (m : List (String × ℚ)) (k : String) (d : ℚ) : ℚ :=
  ((m.find? (fun p => p.1 == k)).map (·.2)).getD d

def painMap : List (String × ℚ) := [("Low", 2), ("Moderate", 5), ("High", 9)]

def mobilityMap : List (String × ℚ) :=
  [("Normal", 90), ("Slightly Reduced", 65), ("Severely Reduced", 35)]

def stiffnessMap : List (String × ℚ) :=
  [("None", 0), ("Mild", 3), ("Moderate", 6), ("Severe", 9)]

def swellingMap : List (String × ℚ) :=
  [("None", 0), ("Mild", 3), ("Moderate", 6), ("Severe", 9)]

/-- The raw console answers consumed by one pass of the Arthritis
`run_loop` (`model.py` 170-242): one answer per prompt, and the stream
of answers to the re-prompting actual-diagnosis question. -/
structure ArthInputs where
  painCat : String
  mobilityCat : String
  stiffnessCat : String
  swellingCat : String
  ageVal : String
  genderInput : String
  labelAnswers : List String

/-- The mutable state one pass of an interactive loop can touch: the
persisted feedback CSV, the persisted artifact files, the in-memory
(global) scaler and model, and a count of retraining invocations.  The
Arthritis and COPD scripts share this shape. -/
structure LoopState where
  ledger : List Row
  store : ArtifactStore
  memScaler : ScalerStats
  memModel : PModel
  retrainAttempts : ℕ

/-- How one pass of an interactive loop ends: `exited` for the sentinel
break, `awaitingLabel` while the Arthritis re-prompting diagnosis
question has received no binary answer, `awaitingOxygen` likewise for
the COPD oxygen question, `crashed` for an uncaught exception,
`skipped` when the COPD loop declines retraining and continues, and
`retrained` for a completed feedback-retrain cycle. -/
inductive LoopOutcome where
  | exited
  | awaitingLabel
  | awaitingOxygen
  | crashed (msg : String)
  | skipped
  | retrained
deriving DecidableEq, Repr

/-- The re-prompting Arthritis diagnosis question (`model.py` 206-212):
consume answers until one capitalizes to `Yes` (label 1) or `No`
(label 0); `none` when no provided answer is binary (the loop keeps
prompting and never skips). -/
def arthritisConfirm : List String → Option ℚ
  | [] => none
  | a :: rest =>
    if pyCapitalize (pyStrip a) == "Yes" then some 1
    else if pyCapitalize (pyStrip a) == "No" then some 0
    else arthritisConfirm rest

def arthritisZeroCols : List String :=
  ["Pain_Level", "Joint_Mobility", "Stiffness", "Swelling"]

/-- The common tail of a feedback-retrain cycle: the ledger has been
appended to, the retraining block has run; on an exception the loop
dies (the in-memory scaler may already be re-fitted), on success the
in-memory model and the persisted model file hold the new fit. -/
def loopFinish (st : LoopState) (ledger2 : List Row) (r : RetrainResult) :
    LoopState × LoopOutcome :=
  match r.errorOut with
  | some e =>
    ({ st with
        ledger := ledger2
        store := r.persisted
        memScaler := r.memScalerAfter
        retrainAttempts := st.retrainAttempts + 1 }, .crashed (retrainErrMsg e))
  | none =>
    ({ ledger := ledger2
       store := r.persisted
       memScaler := r.memScalerAfter
       memModel := r.memModelAfter
       retrainAttempts := st.retrainAttempts + 1 }, .retrained)

/-- After a confirmed binary label `v`: append exactly one row — the
user record with the target column set to the confirmed label — to the
feedback ledger, then run the retraining block once on the original
data plus the whole ledger. -/
def loopAfterConfirm (tcol : String)
    (split : List Row → Except RetrainErr (List Row × List Row))
    (fit : List Row → Except RetrainErr PModel)
    (scalerFit : List Row → ScalerStats)
    (origRows : List Row) (st : LoopState) (df : Row) (v : ℚ) :
    LoopState × LoopOutcome :=
  loopFinish st (st.ledger ++ [rset df tcol (.num v)])
    (feedbackRetrain split fit scalerFit st.store st.memScaler st.memModel origRows
      (st.ledger ++ [rset df tcol (.num v)]))

/-- The user row the Arthritis loop builds (`model.py` 182-192): the
category-to-number maps with their defaults, the gender code if the
input is in the encoder vocabulary (else 0), and the three interaction
products, in insertion order. -/
def arthritisUserRow (classes : EncClasses) (inp : ArthInputs) (ageQ : ℚ) : Row :=
  [("Pain_Level", .num (mapGetD painMap (pyCapitalize (pyStrip inp.painCat)) 5)),
   ("Joint_Mobility", .num (mapGetD mobilityMap (pyCapitalize (pyStrip inp.mobilityCat)) 65)),
   ("Stiffness", .num (mapGetD stiffnessMap (pyCapitalize (pyStrip inp.stiffnessCat)) 3)),
   ("Swelling", .num (mapGetD swellingMap (pyCapitalize (pyStrip inp.swellingCat)) 3)),
   ("Age", .num ageQ),
   ("Gender", .num (((idxOfVal (.str (pyCapitalize (pyStrip inp.genderInput))) classes).map
      (fun i => (i : ℚ))).getD 0)),
   ("Pain_Stiffness", .num (mapGetD painMap (pyCapitalize (pyStrip inp.painCat)) 5 *
      mapGetD stiffnessMap (pyCapitalize (pyStrip inp.stiffnessCat)) 3)),
   ("Pain_Swelling", .num (mapGetD painMap (pyCapitalize (pyStrip inp.painCat)) 5 *
      mapGetD swellingMap (pyCapitalize (pyStrip inp.swellingCat)) 3)),
   ("Stiffness_Swelling", .num (mapGetD stiffnessMap (pyCapitalize (pyStrip inp.stiffnessCat)) 3 *
      mapGetD swellingMap (pyCapitalize (pyStrip inp.swellingCat)) 3))]

/-- `user_scaled = scaler.transform(user_df)` of the Arthritis loop: the
whole row in insertion order through the in-memory scaler. -/
def loopScaleWhole (st : LoopState) (userDf : Row) : Except String (List ℚ) :=
  ((userDf.map (fun kv => kv.2)).mapM cellToQ).bind (scaleList st.memScaler)

/-- One pass of the Arthritis `run_loop` (`model.py` 170-242).  The exit
sentinel is tested only at the pain prompt (line 174) and the age prompt
(line 179); at every other prompt the token is consumed as an ordinary
categorical answer and falls back to the map default.  The model's
probability and hard label are computed and printed (observable output
only); the confirmed diagnosis — never the model's prediction — becomes
the appended label, after which the retraining block runs once and
persists the new model. -/
def arthritisIter (split : List Row → Except RetrainErr (List Row × List Row))
    (fit : List Row → Except RetrainErr PModel)
    (scalerFit : List Row → ScalerStats)
    (origRows : List Row) (st : LoopState) (inp : ArthInputs) : LoopState × LoopOutcome :=
  if pyLower (pyCapitalize (pyStrip inp.painCat)) == "exit" then (st, .exited)
  else if pyLower (pyStrip inp.ageVal) == "exit" then (st, .exited)
  else
    match pyFloat? (pyStrip inp.ageVal) with
    | none => (st, .crashed "could not convert string to float")
    | some ageQ =>
      match (st.store.encodersFile.find? (fun p => p.1 == "Gender")).map (·.2) with
      | none => (st, .crashed "KeyError: Gender")
      | some classes =>
        match imputeCols st.store.imputerFile arthritisZeroCols
            (arthritisUserRow classes inp ageQ) with
        | .error e => (st, .crashed e)
        | .ok userDf =>
          match loopScaleWhole st userDf with
          | .error e => (st, .crashed e)
          | .ok _scaled =>
            match arthritisConfirm inp.labelAnswers with
            | none => (st, .awaitingLabel)
            | some v =>
              loopAfterConfirm "Arthritis" split fit scalerFit origRows st userDf v

/-!
## The COPD interactive loop (`model/COPD_ML/data/model.py` 168-263)
-/

def oxygenMap : List (String × ℚ) := [("Low", 85), ("Normal", 95), ("High", 100)]

/-- The raw console answers consumed by one pass of
`run_user_loop_with_feedback`. -/
structure CopdInputs where
  ageVal : String
  oxygenAnswers : List String
  genderText : String
  smokingText : String
  coughText : String
  sobText : String
  fatigueText : String
  diagnosisAnswer : String

/-- The result of the re-prompting oxygen question (lines 177-184):
an exit token returns from the loop, a valid `Low/Normal/High` answer
yields its mapped value, an invalid one re-prompts. -/
inductive OxygenAnswer where
  | exitTok
  | awaiting
  | value (q : ℚ)
deriving DecidableEq, Repr

def resolveOxygen : List String → OxygenAnswer
  | [] => .awaiting
  | a :: rest =>
    if pyLower (pyCapitalize a) == "exit" then .exitTok
    else match (oxygenMap.find? (fun p => p.1 == pyCapitalize a)).map (·.2) with
      | some q => .value q
      | none => resolveOxygen rest

def copdNumericCols : List String :=
  ["Age", "Oxygen_Level", "Oxygen_Low", "Cough_SOB", "Cough_Fatigue"]

/-- `label_encoders[col].transform([text])[0]` with no fallback: an
unseen label is an uncaught `ValueError`. -/
def copdEncode (encs : List (String × EncClasses)) (col text : String) : Except String ℕ :=
  match (encs.find? (fun p => p.1 == col)).map (·.2) with
  | none => .error ("KeyError: " ++ col)
  | some classes => leTransform classes (.str text)

/-- The user row the COPD loop builds (lines 200-211), in insertion
order. -/
def copdRow (ageQ oxy : ℚ) (g sm c s f : ℕ) : Row :=
  [("Age", .num ageQ), ("Oxygen_Level", .num oxy), ("Oxygen_Low", .num (100 - oxy)),
   ("Cough_SOB", .num ((c : ℚ) * s)), ("Cough_Fatigue", .num ((c : ℚ) * f)),
   ("Gender", .num g), ("Smoking_History", .num sm), ("Cough", .num c),
   ("Shortness_of_Breath", .num s), ("Fatigue", .num f)]

/-- `user_scaled = scaler.transform(user_df[features])` of the COPD
loop. -/
def copdScale (st : LoopState) (df : Row) : Except String (List ℚ) :=
  ((selectCols df copdConfig.features).bind (fun cs => cs.mapM cellToQ)).bind
    (scaleList st.memScaler)

/-- One pass of the COPD `run_user_loop_with_feedback` (lines 170-263).
The exit sentinel is tested at the age prompt, the oxygen prompt and the
diagnosis prompt only; the five categorical prompts feed the encoders
directly (an unseen answer crashes).  A non-binary diagnosis answer
skips feedback and retraining and continues the loop; a binary one
appends the row with the user's confirmed label and runs the retraining
block once. -/
def copdIter (split : List Row → Except RetrainErr (List Row × List Row))
    (fit : List Row → Except RetrainErr PModel)
    (scalerFit : List Row → ScalerStats)
    (origRows : List Row) (st : LoopState) (inp : CopdInputs) : LoopState × LoopOutcome :=
  if pyLower (pyStrip inp.ageVal) == "exit" then (st, .exited)
  else
    match pyFloat? (pyStrip inp.ageVal) with
    | none => (st, .crashed "could not convert string to float")
    | some ageQ =>
      match resolveOxygen inp.oxygenAnswers with
      | .exitTok => (st, .exited)
      | .awaiting => (st, .awaitingOxygen)
      | .value oxy =>
        match copdEncode st.store.encodersFile "Gender" (pyCapitalize inp.genderText) with
        | .error e => (st, .crashed e)
        | .ok g =>
        match copdEncode st.store.encodersFile "Smoking_History"
            (pyCapitalize inp.smokingText) with
        | .error e => (st, .crashed e)
        | .ok sm =>
        match copdEncode st.store.encodersFile "Cough" (pyCapitalize inp.coughText) with
        | .error e => (st, .crashed e)
        | .ok c =>
        match copdEncode st.store.encodersFile "Shortness_of_Breath"
            (pyCapitalize inp.sobText) with
        | .error e => (st, .crashed e)
        | .ok s =>
        match copdEncode st.store.encodersFile "Fatigue" (pyCapitalize inp.fatigueText) with
        | .error e => (st, .crashed e)
        | .ok f =>
        match imputeCols st.store.imputerFile copdNumericCols (copdRow ageQ oxy g sm c s f) with
        | .error e => (st, .crashed e)
        | .ok df =>
        match copdScale st df with
        | .error e => (st, .crashed e)
        | .ok _scaled =>
          if pyLower (pyCapitalize (pyStrip inp.diagnosisAnswer)) == "exit" then (st, .exited)
          else if !(pyCapitalize (pyStrip inp.diagnosisAnswer) == "Yes" ||
              pyCapitalize (pyStrip inp.diagnosisAnswer) == "No") then (st, .skipped)
          else
            loopAfterConfirm "COPD" split fit scalerFit origRows st df
              (if pyCapitalize (pyStrip inp.diagnosisAnswer) == "Yes" then 1 else 0)

/-!
## Concrete fixtures

Fitted artifacts and console inputs used to instantiate the theorems at
explicit values.  The artifact contents are runtime data (unpickled
fitted objects); identity scalers (`mean 0, scale 1`) keep the traces
readable without changing any control flow.
-/

/-- An identity `StandardScaler` over `n` features. -/
def idStats (n : ℕ) : ScalerStats := List.replicate n (0, 1)

def pmZero : PModel := { probaFn := fun _ => 0, labelFn := fun _ => 0 }

/-- A classifier sitting exactly on the decision boundary; the boosted
tree library's binary `predict` thresholds strictly (`prob > 0.5`), so a
probability of exactly one half yields the hard label 0. -/
def xgbBoundaryModel : PModel := { probaFn := fun _ => 1/2, labelFn := fun _ => 0 }

/-- A classifier whose hard label follows its probability with the
library's strict one-half threshold. -/
def heartSharpModel : PModel := { probaFn := fun _ => 3/4, labelFn := fun _ => 1 }

def heartEncodersFit : List (String × EncClasses) :=
  [("sex", [.str "Female", .str "Male"]), ("fbs", [.num 0, .num 1])]

def heartImputerFit : ImputerStats :=
  [("age", 54), ("trestbps", 130), ("chol", 240), ("thalch", 150)]

def heartArtBoundary : Artifacts :=
  { model := xgbBoundaryModel, scaler := some (idStats 6),
    encoders := some heartEncodersFit, numImputer := some heartImputerFit }

def heartArtSharp : Artifacts :=
  { model := heartSharpModel, scaler := some (idStats 6),
    encoders := some heartEncodersFit, numImputer := some heartImputerFit }

/-- The end-to-end example row of the specification. -/
def heartExampleRow : Row :=
  [("age", .num 45), ("sex", .str "Male"), ("trestbps", .num 130), ("chol", .num 250),
   ("fbs", .num 0), ("thalch", .num 150)]

def heartLoadBoundary : String → Option Artifacts :=
  fun mt => if mt == "heart" then some heartArtBoundary else none

/-- The fitted medians of the diabetes numeric imputer, keyed in the
zero-column fit order. -/
def dMediansFit : ImputerStats :=
  [("Glucose", 117), ("BloodPressure", 72), ("SkinThickness", 23),
   ("Insulin", 125), ("BMI", 32)]

def dArt : Artifacts :=
  { model := pmZero, scaler := some (idStats 7), encoders := none,
    numImputer := some dMediansFit }

/-- A prediction request with the zero sentinel in the BMI field
(frontend camelCase keys). -/
def dReqZeroRow : Row :=
  [("glucose", .num 120), ("bloodPressure", .num 70), ("skinThickness", .num 20),
   ("insulin", .num 80), ("bmi", .num 0), ("diabetesPedigreeFunction", .num (1/2)),
   ("age", .num 33)]

/-- The same request with BMI missing (null) instead of zero. -/
def dReqNullRow : Row :=
  [("glucose", .num 120), ("bloodPressure", .num 70), ("skinThickness", .num 20),
   ("insulin", .num 80), ("bmi", .null), ("diabetesPedigreeFunction", .num (1/2)),
   ("age", .num 33)]

/-- The same record with the training-side column names. -/
def dTrainZeroRow : Row :=
  [("Glucose", .num 120), ("BloodPressure", .num 70), ("SkinThickness", .num 20),
   ("Insulin", .num 80), ("BMI", .num 0), ("DiabetesPedigreeFunction", .num (1/2)),
   ("Age", .num 33)]

def predOneModel : PModel := { probaFn := fun _ => 9/10, labelFn := fun _ => 1 }

def predZeroModel : PModel := { probaFn := fun _ => 1/10, labelFn := fun _ => 0 }

def ckdMediansFit : ImputerStats :=
  [("age", 51), ("bp", 80), ("bgr", 121), ("bu", 42), ("sc", 13/10), ("hemo", 63/5)]

def ckdUserRow : Row :=
  [("age", .num 50), ("bp", .num 80), ("bgr", .num 120), ("bu", .num 40),
   ("sc", .num (6/5)), ("hemo", .num 14), ("htn", .num 1)]

/-- Original plus feedback data for the CKD retrain trace: four original
rows (three negative, one positive, hence an initial
`scale_pos_weight` of 3) and two positive feedback rows. -/
def ckdOrigRows : List Row :=
  [[("age", .num 30), ("classification", .num 0)],
   [("age", .num 40), ("classification", .num 0)],
   [("age", .num 50), ("classification", .num 0)],
   [("age", .num 60), ("classification", .num 1)]]

def ckdFbRows : List Row :=
  [[("age", .num 55), ("classification", .num 1)],
   [("age", .num 65), ("classification", .num 1)]]

def arthEncodersFit : List (String × EncClasses) :=
  [("Gender", [.str "Female", .str "Male"])]

def arthImputerFit : ImputerStats :=
  [("Pain_Level", 5), ("Joint_Mobility", 70), ("Stiffness", 4), ("Swelling", 3)]

def arthStore0 : ArtifactStore :=
  { modelFile := pmZero, scalerFile := idStats 9, encodersFile := arthEncodersFit,
    imputerFile := arthImputerFit }

def arthState0 : LoopState :=
  { ledger := [], store := arthStore0, memScaler := idStats 9, memModel := pmZero,
    retrainAttempts := 0 }

/-- A split that always succeeds (everything in the train partition). -/
def okSplit : List Row → Except RetrainErr (List Row × List Row) :=
  fun rows => .ok (rows, [])

def okFit : List Row → Except RetrainErr PModel := fun _ => .ok predOneModel

def idSF9 : List Row → ScalerStats := fun _ => idStats 9

def idSF10 : List Row → ScalerStats := fun _ => idStats 10

/-- Console answers with the exit token typed at the mobility prompt. -/
def arthInpExitMobility : ArthInputs :=
  { painCat := "Moderate", mobilityCat := "exit", stiffnessCat := "Mild",
    swellingCat := "None", ageVal := "45", genderInput := "Male",
    labelAnswers := ["No"] }

/-- Console answers with a non-binary reply to the diagnosis question. -/
def arthInpMaybe : ArthInputs :=
  { painCat := "Moderate", mobilityCat := "Normal", stiffnessCat := "Mild",
    swellingCat := "None", ageVal := "45", genderInput := "Male",
    labelAnswers := ["Maybe"] }

/-- Console answers confirming a `yes` diagnosis. -/
def arthInpYes : ArthInputs :=
  { painCat := "High", mobilityCat := "Normal", stiffnessCat := "Mild",
    swellingCat := "None", ageVal := "50", genderInput := "Female",
    labelAnswers := ["yes"] }

/-- A feedback data set whose labels are all one class. -/
def singleClassRows : List Row :=
  [[("Pain_Level", .num 9), ("Arthritis", .num 1)],
   [("Pain_Level", .num 8), ("Arthritis", .num 1)]]

def copdEncodersFit : List (String × EncClasses) :=
  [("Gender", [.str "Female", .str "Male"]),
   ("Smoking_History", [.str "Current", .str "Former", .str "Never"]),
   ("Cough", [.str "Mild", .str "None", .str "Severe"]),
   ("Shortness_of_Breath", [.str "Mild", .str "None", .str "Severe"]),
   ("Fatigue", [.str "Mild", .str "None", .str "Severe"])]

def copdImputerFit : ImputerStats :=
  [("Age", 60), ("Oxygen_Level", 95), ("Oxygen_Low", 5), ("Cough_SOB", 1),
   ("Cough_Fatigue", 1)]

def copdStore0 : ArtifactStore :=
  { modelFile := pmZero, scalerFile := idStats 10, encodersFile := copdEncodersFit,
    imputerFile := copdImputerFit }

def copdState0 : LoopState :=
  { ledger := [], store := copdStore0, memScaler := idStats 10, memModel := pmZero,
    retrainAttempts := 0 }

/-- Console answers reaching the diagnosis prompt and answering with a
non-binary token. -/
def copdInpSkip : CopdInputs :=
  { ageVal := "60", oxygenAnswers := ["Normal"], genderText := "male",
    smokingText := "never", coughText := "none", sobText := "mild",
    fatigueText := "severe", diagnosisAnswer := "maybe" }

/-!
## Helper lemmas
-/

theorem rlookup_rset_self (df : Row) (k : String) (v : FValue) :
    rlookup (rset df k v) k = some v := by
  induction df with
  | nil => simp [rset, rlookup, List.find?]
  | cons kv rest ih =>
    by_cases h : kv.1 == k
    · simp [rset, h, rlookup, List.find?]
    · simp only [rset, h, Bool.false_eq_true, if_neg, not_false_iff]
      simp only [rlookup, List.find?, h] at ih ⊢
      exact ih

/-- Inversion of a successful `make_prediction`: the returned triple is
(probability, hard label, probability) of the model on the assembled,
scaled feature vector. -/
theorem makePrediction_ok_inv (mt : String) (a : Artifacts) (row : Row)
    (p : ℚ) (l : ℤ) (c : ℚ) (h : makePrediction mt a row = .ok (p, l, c)) :
    ∃ s, p = a.model.probaFn s ∧ l = a.model.labelFn s ∧ c = a.model.probaFn s := by
  unfold makePrediction at h
  cases hcfg : configLookup mt with
  | none => simp only [hcfg] at h; exact absurd h (by simp)
  | some cfg =>
    simp only [hcfg] at h
    cases he : (if mt == "heart" then heartProcess cfg a (encodeCatFeatures mt row)
      else if mt == "diabetes" then diabetesProcess cfg a (encodeCatFeatures mt row)
      else genericProcess mt cfg a (encodeCatFeatures mt row)) with
    | error msg => rw [he] at h; simp [Except.map] at h
    | ok s =>
      rw [he] at h
      simp only [Except.map, Except.ok.injEq, Prod.mk.injEq] at h
      exact ⟨s, h.1.symm, h.2.1.symm, h.2.2.symm⟩

/-- C10: for every successful prediction, the confidence field equals
the risk_probability field exactly — `make_prediction` returns
`(float(pred_prob), int(prediction), float(pred_prob))`, so both carry
the same positive-class probability. -/
theorem c10_confidence_equals_risk (mt : String) (a : Artifacts) (row : Row)
    (p : ℚ) (l : ℤ) (c : ℚ) (h : makePrediction mt a row = .ok (p, l, c)) : c = p := by
  obtain ⟨s, hp, _, hc⟩ := makePrediction_ok_inv mt a row p l c h
  rw [hp, hc]

/-- Witness for C10 at the spec's heart example row under concrete
fitted artifacts. -/
theorem c10_confidence_equals_risk_witness : (3/4 : ℚ) = 3/4 :=
  c10_confidence_equals_risk "heart" heartArtSharp heartExampleRow (3/4) 1 (3/4)
    (by with_unfolding_all rfl)

/-- C8: the HTTP contract of `POST /predict/disease/{model_type}`
(`main.py` 441-454): an unconfigured disease key yields 404; a missing
artifact bundle or any exception inside `make_prediction` yields 500
with the exception message as the detail; a success returns the body
with `risk_probability`, `prediction` and `confidence`. -/
theorem c8_http_contract :
    (∀ load (mt : String) (row : Row), mt ∉ modelKeys →
      predictDisease load mt row = .err 404 ("Model " ++ mt ++ " not found")) ∧
    (∀ load (mt : String) (row : Row), mt ∈ modelKeys → load mt = none →
      predictDisease load mt row =
        .err 500 ("Model artifacts not available for " ++ mt)) ∧
    (∀ load (mt : String) (row : Row) (a : Artifacts) (e : String), mt ∈ modelKeys →
      load mt = some a → makePrediction mt a row = .error e →
      predictDisease load mt row = .err 500 e) ∧
    (∀ load (mt : String) (row : Row) (a : Artifacts) (p : ℚ) (l : ℤ) (c : ℚ),
      mt ∈ modelKeys → load mt = some a → makePrediction mt a row = .ok (p, l, c) →
      predictDisease load mt row = .ok p l c) := by
  refine ⟨?_, ?_, ?_, ?_⟩
  · intro load mt row h
    unfold predictDisease
    rw [if_neg h]
  · intro load mt row hmem hload
    unfold predictDisease
    rw [if_pos hmem, hload]
  · intro load mt row a e hmem hload hmk
    unfold predictDisease
    rw [if_pos hmem, hload]
    simp only [hmk]
  · intro load mt row a p l c hmem hload hmk
    unfold predictDisease
    rw [if_pos hmem, hload]
    simp only [hmk]

/-- Witness for C8: each clause of the contract at a concrete request —
an unknown key, a missing bundle, a preprocessing exception (an empty
feature row raising a `KeyError` in the heart branch), and the spec's
heart example row succeeding. -/
theorem c8_http_contract_witness :
    predictDisease heartLoadBoundary "flu" [] = .err 404 "Model flu not found" ∧
    predictDisease (fun _ => none) "heart" [] =
      .err 500 "Model artifacts not available for heart" ∧
    predictDisease heartLoadBoundary "heart" [] =
      .err 500 "KeyError: missing imputation column" ∧
    predictDisease heartLoadBoundary "heart" heartExampleRow = .ok (1/2) 0 (1/2) := by
  refine ⟨?_, ?_, ?_, ?_⟩
  · exact c8_http_contract.1 heartLoadBoundary "flu" [] (by decide)
  · exact c8_http_contract.2.1 (fun _ => none) "heart" [] (by decide) rfl
  · exact c8_http_contract.2.2.1 heartLoadBoundary "heart" [] heartArtBoundary
      "KeyError: missing imputation column" (by decide) (by with_unfolding_all rfl)
      (by with_unfolding_all rfl)
  · exact c8_http_contract.2.2.2 heartLoadBoundary "heart" heartExampleRow heartArtBoundary
      (1/2) 0 (1/2) (by decide) (by with_unfolding_all rfl) (by with_unfolding_all rfl)

/-- C7: a categorical value absent from the fitted vocabulary never
raises and is mapped to the fallback code 0 with a warning, on both
encoding paths of the prediction service — the generic branch
(`main.py` 396-408) and the heart branch with its coercion step
(`main.py` 336-348).  (The diabetes branch configures no categorical
columns, so it has no encoding step.)  Both per-column steps are total
functions: the only `ValueError` the embedded `LabelEncoder.transform`
can raise is the `previously unseen labels` one, which both handlers
catch, substitute 0 for, and log. -/
theorem c7_unseen_label_fallback :
    (∀ (classes : EncClasses) (v : FValue), idxOfVal v classes = none →
      genericEncodeCol classes v = (.num 0, true)) ∧
    (∀ (classes : EncClasses) (v : FValue),
      idxOfVal (coerceForEncoder classes v) classes = none →
      heartEncodeCol classes v = (.num 0, true)) := by
  constructor
  · intro classes v h
    unfold genericEncodeCol leTransform
    rw [h]
  · intro classes v h
    unfold heartEncodeCol leTransform
    rw [h]

/-- Witness for C7: the unseen string `Banana` against a fitted
two-class vocabulary falls back to code 0 with the warning flag on both
paths. -/
theorem c7_unseen_label_fallback_witness :
    genericEncodeCol [.str "Female", .str "Male"] (.str "Banana") = (.num 0, true) ∧
    heartEncodeCol [.str "Female", .str "Male"] (.str "Banana") = (.num 0, true) :=
  ⟨c7_unseen_label_fallback.1 [.str "Female", .str "Male"] (.str "Banana") (by decide),
   c7_unseen_label_fallback.2 [.str "Female", .str "Male"] (.str "Banana")
     (by with_unfolding_all decide)⟩

/-- C5: retraining of the Arthritis/COPD shape is all-or-nothing for
the persisted artifacts: the model file is dumped only after the split,
the scaler re-fit and the classifier re-fit have all succeeded, and the
scaler/encoder/imputer files are never re-written during retraining, so
a failure at any step (for example `InsufficientClassDiversity` from
the stratified split) leaves every persisted Model and
PreprocessingState artifact exactly as it was before the attempt. -/
theorem c5_retrain_atomic (split : List Row → Except RetrainErr (List Row × List Row))
    (fit : List Row → Except RetrainErr PModel) (scalerFit : List Row → ScalerStats)
    (store : ArtifactStore) (memScaler : ScalerStats) (memModel : PModel)
    (origRows feedbackRows : List Row) (e : RetrainErr)
    (h : (feedbackRetrain split fit scalerFit store memScaler memModel
            origRows feedbackRows).errorOut = some e) :
    (feedbackRetrain split fit scalerFit store memScaler memModel
        origRows feedbackRows).persisted = store := by
  have key : ∀ r : RetrainResult,
      feedbackRetrain split fit scalerFit store memScaler memModel origRows feedbackRows = r →
      r.errorOut = some e → r.persisted = store := by
    intro r hr
    unfold feedbackRetrain at hr
    split at hr
    · subst hr; intro _; rfl
    · split at hr
      · subst hr; intro _; rfl
      · subst hr; intro hco; simp at hco
  exact key _ rfl h

/-- Witness for C5: single-class combined data makes the stratified
split fail with `InsufficientClassDiversity`, and the persisted store is
untouched. -/
theorem c5_retrain_atomic_witness :
    (feedbackRetrain (specStratSplit "Arthritis") okFit idSF9 arthStore0 (idStats 9)
        pmZero singleClassRows []).persisted = arthStore0 :=
  c5_retrain_atomic (specStratSplit "Arthritis") okFit idSF9 arthStore0 (idStats 9)
    pmZero singleClassRows [] .insufficientClassDiversity (by with_unfolding_all rfl)

/-- C2 (code bug): the serving-side Preprocessing Pipeline does not
replace zero-sentinel values.  The fitted `SimpleImputer` replaces only
missing values; the training scripts first run
`df[col].replace(0, np.nan)` (diabetes `model.py` 20-25) so zeros do
become the fitted median at training time, but the diabetes branch of
`make_prediction` (`main.py` 373-377, under the comment `Handle zero
values and imputation`) applies the imputer without that replacement.
At the concrete request below, a BMI of 0 flows through imputation and
identity scaling unchanged (fifth coordinate 0), a BMI of null becomes
the fitted median 32, and the training-side handling of the same record
yields 32 — while the claim requires the zero to become 32 as well. -/
theorem c2_zero_sentinel_retained :
    diabetesProcess diabetesConfig dArt (encodeCatFeatures "diabetes" dReqZeroRow) =
      .ok [120, 70, 20, 80, 0, 1/2, 33] ∧
    diabetesProcess diabetesConfig dArt (encodeCatFeatures "diabetes" dReqNullRow) =
      .ok [120, 70, 20, 80, 32, 1/2, 33] ∧
    (diabetesTrainImputeRow dMediansFit dTrainZeroRow).map (fun r => rlookup r "BMI") =
      .ok (some (.num 32)) ∧
    (0 : ℚ) ≠ 32 := by
  refine ⟨?_, ?_, ?_, by norm_num⟩
  · with_unfolding_all rfl
  · with_unfolding_all rfl
  · with_unfolding_all rfl

/-- C4 (counterexample): the CKD retraining block at a concrete
combined data set of six rows (four original with labels 0,0,0,1 and an
initial constructor-time `scale_pos_weight` of 3, plus two positive
feedback rows).  The classifier is re-fitted on all six concatenated
rows with an empty held-out partition — there is no 80/20 stratified
split — and the weight in effect during the re-fit is still the initial
3, not the freshly recomputed neg/pos ratio 1. -/
theorem c4_counterexample :
    (ckdRetrain ckdOrigRows ckdFbRows 3).trainRows = ckdOrigRows ++ ckdFbRows ∧
    (ckdRetrain ckdOrigRows ckdFbRows 3).trainRows.length = 6 ∧
    (ckdRetrain ckdOrigRows ckdFbRows 3).heldOutRows = [] ∧
    (ckdRetrain ckdOrigRows ckdFbRows 3).weightUsed = 3 ∧
    (ckdRetrain ckdOrigRows ckdFbRows 3).weightRecomputed = 1 ∧
    (3 : ℚ) ≠ 1 := by
  refine ⟨?_, ?_, ?_, ?_, ?_, by norm_num⟩
  · with_unfolding_all rfl
  · with_unfolding_all rfl
  · with_unfolding_all rfl
  · with_unfolding_all rfl
  · with_unfolding_all rfl

/-- C4 (amended): in the CKD and Asthma scripts, retraining re-fits the
scaler and the classifier on the entire concatenation of original and
feedback rows, with no train/held-out split; the neg/pos class weight is
recomputed from the combined data but never applied — the classifier
keeps the `scale_pos_weight` it was constructed with.  (The
Hypertension, Arthritis, COPD and Liver scripts do perform an 80/20
stratified split at retraining, but recompute no class weight at all.) -/
theorem c4_amended_retrain_shape (orig fb : List Row) (w : ℚ) :
    (ckdRetrain orig fb w).trainRows = orig ++ fb ∧
    (ckdRetrain orig fb w).heldOutRows = [] ∧
    (ckdRetrain orig fb w).weightUsed = w ∧
    (ckdRetrain orig fb w).weightRecomputed =
      (labelCount "classification" 0 (orig ++ fb) : ℚ) /
        (max (labelCount "classification" 1 (orig ++ fb)) 1 : ℕ) ∧
    (asthmaRetrain orig fb w).trainRows = orig ++ fb ∧
    (asthmaRetrain orig fb w).heldOutRows = [] ∧
    (asthmaRetrain orig fb w).weightUsed = w ∧
    (asthmaRetrain orig fb w).weightRecomputed =
      (labelCount "Diagnosis" 0 (orig ++ fb) : ℚ) /
        (max (labelCount "Diagnosis" 1 (orig ++ fb)) 1 : ℕ) :=
  ⟨rfl, rfl, rfl, rfl, rfl, rfl, rfl, rfl⟩

/-- Inversion of a successful retraining block: the split and the
classifier fit both succeeded, and the only persisted artifact that
changed is the model file, which now holds the new fit. -/
theorem feedbackRetrain_ok_inv (split : List Row → Except RetrainErr (List Row × List Row))
    (fit : List Row → Except RetrainErr PModel) (scalerFit : List Row → ScalerStats)
    (store : ArtifactStore) (memScaler : ScalerStats) (memModel : PModel)
    (origRows feedbackRows : List Row)
    (h : (feedbackRetrain split fit scalerFit store memScaler memModel
            origRows feedbackRows).errorOut = none) :
    ∃ train test m', split (dedupRows (origRows ++ feedbackRows)) = .ok (train, test) ∧
      fit train = .ok m' ∧
      feedbackRetrain split fit scalerFit store memScaler memModel origRows feedbackRows =
        ⟨{ store with modelFile := m' }, scalerFit train, m', none⟩ := by
  have key : ∀ r : RetrainResult,
      feedbackRetrain split fit scalerFit store memScaler memModel origRows feedbackRows = r →
      r.errorOut = none →
      ∃ train test m', split (dedupRows (origRows ++ feedbackRows)) = .ok (train, test) ∧
        fit train = .ok m' ∧ r = ⟨{ store with modelFile := m' }, scalerFit train, m', none⟩ := by
    intro r hr
    unfold feedbackRetrain at hr
    split at hr
    · subst hr; intro hco; simp at hco
    · split at hr
      · subst hr; intro hco; simp at hco
      · subst hr
        rename_i x1 trainPart testPart hs x2 m' hf
        intro _
        exact ⟨trainPart, testPart, m', hs, hf, rfl⟩
  obtain ⟨train, test, m', hs, hf, hr⟩ := key _ rfl h
  exact ⟨train, test, m', hs, hf, hr⟩

/-- Inversion of `loopFinish` ending in `retrained`: the retraining
block reported no error and the state is exactly the appended ledger
plus the retrain result. -/
theorem loopFinish_retrained_inv (st : LoopState) (ledger2 : List Row) (r : RetrainResult)
    (st' : LoopState) (h : loopFinish st ledger2 r = (st', .retrained)) :
    r.errorOut = none ∧
      st' = ⟨ledger2, r.persisted, r.memScalerAfter, r.memModelAfter,
             st.retrainAttempts + 1⟩ := by
  unfold loopFinish at h
  cases hco : r.errorOut with
  | some e => rw [hco] at h; simp at h
  | none =>
    rw [hco] at h
    simp only [Prod.mk.injEq] at h
    exact ⟨rfl, h.1.symm⟩

/-- Inversion of `loopAfterConfirm` ending in `retrained`: exactly one
row — the user record carrying the confirmed label in the target
column — was appended to the ledger, the retraining block was invoked
exactly once and succeeded, and the persisted model file and in-memory
model hold the new fit produced from the deduplicated concatenation of
the original data and the appended ledger. -/
theorem loopAfterConfirm_retrained_inv (tcol : String)
    (split : List Row → Except RetrainErr (List Row × List Row))
    (fit : List Row → Except RetrainErr PModel) (scalerFit : List Row → ScalerStats)
    (origRows : List Row) (st : LoopState) (df : Row) (v : ℚ) (st' : LoopState)
    (h : loopAfterConfirm tcol split fit scalerFit origRows st df v = (st', .retrained)) :
    st'.ledger = st.ledger ++ [rset df tcol (.num v)] ∧
      rlookup (rset df tcol (.num v)) tcol = some (.num v) ∧
      st'.retrainAttempts = st.retrainAttempts + 1 ∧
      st'.memModel = st'.store.modelFile ∧
      st'.store.scalerFile = st.store.scalerFile ∧
      st'.store.encodersFile = st.store.encodersFile ∧
      st'.store.imputerFile = st.store.imputerFile ∧
      ∃ train test, split (dedupRows (origRows ++ st'.ledger)) = .ok (train, test) ∧
        fit train = .ok st'.store.modelFile := by
  unfold loopAfterConfirm at h
  obtain ⟨hco, hst⟩ := loopFinish_retrained_inv _ _ _ _ h
  obtain ⟨train, test, m', hs, hf, hr⟩ := feedbackRetrain_ok_inv _ _ _ _ _ _ _ _ hco
  subst hst
  rw [hr]
  exact ⟨rfl, rlookup_rset_self df tcol (.num v), rfl, rfl, rfl, rfl, rfl, train, test, hs, hf⟩

/-- Inversion of one Arthritis loop pass ending in `retrained`: some
binary answer to the diagnosis question was confirmed and the common
append-and-retrain tail ran with that label. -/
theorem arthritisIter_retrained_inv
    (split : List Row → Except RetrainErr (List Row × List Row))
    (fit : List Row → Except RetrainErr PModel) (scalerFit : List Row → ScalerStats)
    (origRows : List Row) (st : LoopState) (inp : ArthInputs) (st' : LoopState)
    (h : arthritisIter split fit scalerFit origRows st inp = (st', .retrained)) :
    ∃ v df, arthritisConfirm inp.labelAnswers = some v ∧
      loopAfterConfirm "Arthritis" split fit scalerFit origRows st df v =
        (st', .retrained) := by
  unfold arthritisIter at h
  split at h
  · simp at h
  · split at h
    · simp at h
    · split at h
      · simp at h
      · split at h
        · simp at h
        · split at h
          · simp at h
          · split at h
            · simp at h
            · split at h
              · simp at h
              · rename_i x v hconf
                exact ⟨v, _, hconf, h⟩

/-- C3 (counterexample): in the CKD script the label appended to the
feedback ledger is the model's own prediction (`predict_from_user`
lines 148-156, `user_df[target_col] = prediction` under the comment
`Self-retrain`); no ground-truth answer is ever solicited.  With the
same user record and fitted preprocessing, a model predicting 1 appends
label 1 and a model predicting 0 appends label 0 — the stored label
tracks the classifier, contradicting the claim that it equals a
user-confirmed answer and is never the model's own prediction. -/
theorem c3_counterexample :
    (ckdPredictAndAppend predOneModel (idStats 7) ckdMediansFit [] ckdUserRow).map
        (fun pr => (pr.1, pr.2.map (fun r => rlookup r "classification"))) =
      .ok (1, [some (.num 1)]) ∧
    (ckdPredictAndAppend predZeroModel (idStats 7) ckdMediansFit [] ckdUserRow).map
        (fun pr => (pr.1, pr.2.map (fun r => rlookup r "classification"))) =
      .ok (0, [some (.num 0)]) := by
  constructor
  · with_unfolding_all rfl
  · with_unfolding_all rfl

/-- C3 (amended): which label reaches the ledger is script-dependent.
In the CKD (and likewise Hypertension and Asthma) scripts the appended
entry's target column always carries the model's own prediction, while
in the Arthritis (and likewise COPD and Liver) loops it always carries
the user's confirmed binary answer, independent of the model.  The first
clause inverts every successful CKD append; the second inverts every
completed Arthritis feedback cycle. -/
theorem c3_amended_label_provenance :
    (∀ (m : PModel) (sc : ScalerStats) (imp : ImputerStats) (ledger : List Row)
        (row : Row) (pred : ℤ) (out : List Row),
      ckdPredictAndAppend m sc imp ledger row = .ok (pred, out) →
      ∃ r, out = ledger ++ [r] ∧ rlookup r "classification" = some (.num pred)) ∧
    (∀ split fit scalerFit (origRows : List Row) (st : LoopState) (inp : ArthInputs)
        (st' : LoopState) (v : ℚ),
      arthritisConfirm inp.labelAnswers = some v →
      arthritisIter split fit scalerFit origRows st inp = (st', .retrained) →
      ∃ r, st'.ledger = st.ledger ++ [r] ∧ rlookup r "Arthritis" = some (.num v)) := by
  constructor
  · intro m sc imp ledger row pred out h
    unfold ckdPredictAndAppend at h
    split at h
    · simp at h
    · split at h
      · simp at h
      · split at h
        · simp at h
        · rename_i ximp dfr himp xmapm xsv hmapm xsc scaledv hscale
          simp only [Except.ok.injEq, Prod.mk.injEq] at h
          refine ⟨rset dfr "classification" (.num (m.labelFn scaledv)), ?_, ?_⟩
          · rw [← h.2]
          · rw [← h.1]
            exact rlookup_rset_self dfr "classification" (.num (m.labelFn scaledv))
  · intro split fit scalerFit origRows st inp st' v hv h
    obtain ⟨v', df, hconf, hafter⟩ :=
      arthritisIter_retrained_inv split fit scalerFit origRows st inp st' h
    rw [hv] at hconf
    obtain rfl : v = v' := by injection hconf
    obtain ⟨hledger, hlook, _⟩ :=
      loopAfterConfirm_retrained_inv "Arthritis" split fit scalerFit origRows st df v st' hafter
    exact ⟨rset df "Arthritis" (.num v), hledger, hlook⟩

/-- Witness for C3 (amended): a concrete successful CKD append whose
stored label is the model's prediction 1, and a concrete completed
Arthritis cycle whose stored label is the user's confirmed `yes`. -/
theorem c3_amended_label_provenance_witness :
    (∃ r, [[("age", FValue.num 50), ("bp", FValue.num 80), ("bgr", FValue.num 120),
            ("bu", FValue.num 40), ("sc", FValue.num (6/5)), ("hemo", FValue.num 14),
            ("htn", FValue.num 1), ("classification", FValue.num 1)]] = ([] : List Row) ++ [r] ∧
      rlookup r "classification" = some (.num 1)) ∧
    (∃ r, (arthritisIter okSplit okFit idSF9 [] arthState0 arthInpYes).1.ledger =
        arthState0.ledger ++ [r] ∧ rlookup r "Arthritis" = some (.num 1)) := by
  constructor
  · exact c3_amended_label_provenance.1 predOneModel (idStats 7) ckdMediansFit []
      ckdUserRow 1
      [[("age", FValue.num 50), ("bp", FValue.num 80), ("bgr", FValue.num 120),
         ("bu", FValue.num 40), ("sc", FValue.num (6/5)), ("hemo", FValue.num 14),
         ("htn", FValue.num 1), ("classification", FValue.num 1)]]
      (by with_unfolding_all rfl)
  · exact c3_amended_label_provenance.2 okSplit okFit idSF9 [] arthState0 arthInpYes
      (arthritisIter okSplit okFit idSF9 [] arthState0 arthInpYes).1 1
      (by with_unfolding_all rfl) (by with_unfolding_all rfl)

/-- C6: in the Arthritis loop, a prediction followed by a confirmed
`Yes` diagnosis appends exactly one new row (carrying label 1) to the
feedback ledger and invokes exactly one retraining cycle; when the
cycle completes, the persisted model file is replaced by the new fit
produced from the deduplicated concatenation of the original data and
the updated ledger (and the in-memory model equals it), while the other
persisted preprocessing artifacts are not rewritten. -/
theorem c6_yes_appends_once_retrains_once
    (split : List Row → Except RetrainErr (List Row × List Row))
    (fit : List Row → Except RetrainErr PModel) (scalerFit : List Row → ScalerStats)
    (origRows : List Row) (st : LoopState) (inp : ArthInputs) (st' : LoopState)
    (hyes : arthritisConfirm inp.labelAnswers = some 1)
    (h : arthritisIter split fit scalerFit origRows st inp = (st', .retrained)) :
    ∃ r, rlookup r "Arthritis" = some (.num 1) ∧
      st'.ledger = st.ledger ++ [r] ∧
      st'.retrainAttempts = st.retrainAttempts + 1 ∧
      st'.memModel = st'.store.modelFile ∧
      st'.store.scalerFile = st.store.scalerFile ∧
      st'.store.encodersFile = st.store.encodersFile ∧
      st'.store.imputerFile = st.store.imputerFile ∧
      ∃ train test, split (dedupRows (origRows ++ st'.ledger)) = .ok (train, test) ∧
        fit train = .ok st'.store.modelFile := by
  obtain ⟨v, df, hconf, hafter⟩ :=
    arthritisIter_retrained_inv split fit scalerFit origRows st inp st' h
  rw [hyes] at hconf
  obtain rfl : (1 : ℚ) = v := by injection hconf
  obtain ⟨hledger, hlook, hcount, hmem, hsc, henc, himp, hrest⟩ :=
    loopAfterConfirm_retrained_inv "Arthritis" split fit scalerFit origRows st df 1 st' hafter
  exact ⟨rset df "Arthritis" (.num 1), hlook, hledger, hcount, hmem, hsc, henc, himp, hrest⟩

/-- Witness for C6: a complete concrete pass — valid vitals, a confirmed
`yes`, a succeeding split and fit — appends one labelled row and runs
one retraining cycle. -/
theorem c6_yes_appends_once_retrains_once_witness :
    ∃ r, rlookup r "Arthritis" = some (.num 1) ∧
      (arthritisIter okSplit okFit idSF9 [] arthState0 arthInpYes).1.ledger =
        arthState0.ledger ++ [r] ∧
      (arthritisIter okSplit okFit idSF9 [] arthState0 arthInpYes).1.retrainAttempts =
        arthState0.retrainAttempts + 1 ∧
      (arthritisIter okSplit okFit idSF9 [] arthState0 arthInpYes).1.memModel =
        (arthritisIter okSplit okFit idSF9 [] arthState0 arthInpYes).1.store.modelFile ∧
      (arthritisIter okSplit okFit idSF9 [] arthState0 arthInpYes).1.store.scalerFile =
        arthState0.store.scalerFile ∧
      (arthritisIter okSplit okFit idSF9 [] arthState0 arthInpYes).1.store.encodersFile =
        arthState0.store.encodersFile ∧
      (arthritisIter okSplit okFit idSF9 [] arthState0 arthInpYes).1.store.imputerFile =
        arthState0.store.imputerFile ∧
      ∃ train test,
        okSplit (dedupRows ([] ++ (arthritisIter okSplit okFit idSF9 [] arthState0
          arthInpYes).1.ledger)) = .ok (train, test) ∧
        okFit train = .ok (arthritisIter okSplit okFit idSF9 [] arthState0
          arthInpYes).1.store.modelFile :=
  c6_yes_appends_once_retrains_once okSplit okFit idSF9 [] arthState0 arthInpYes
    (arthritisIter okSplit okFit idSF9 [] arthState0 arthInpYes).1
    (by with_unfolding_all rfl) (by with_unfolding_all rfl)

/-- C9 (counterexample): the exit sentinel is not honored at every
prompt, and a non-binary label answer does not produce a Skipped
transition in the Arthritis loop.  Typing `exit` at the Arthritis
mobility prompt is consumed as an ordinary category (falling back to
the default 65) and the pass runs all the way to a completed
retraining; answering `Maybe` at the Arthritis diagnosis prompt leaves
the loop re-prompting for a binary answer (no skip, no return to the
next iteration). -/
theorem c9_counterexample :
    (arthritisIter okSplit okFit idSF9 [] arthState0 arthInpExitMobility).2 =
      .retrained ∧
    (arthritisIter okSplit okFit idSF9 [] arthState0 arthInpMaybe).2 =
      .awaitingLabel ∧
    (arthritisIter okSplit okFit idSF9 [] arthState0 arthInpMaybe).1 = arthState0 := by
  refine ⟨?_, ?_, ?_⟩
  · with_unfolding_all rfl
  · with_unfolding_all rfl
  · with_unfolding_all rfl

/-- C9 (amended): the exit sentinel terminates the loop exactly at the
prompts that test for it — the Arthritis pain and age prompts, and the
COPD age prompt (likewise its oxygen and diagnosis prompts) — while at
any other prompt it is consumed as an ordinary value.  A non-binary
diagnosis answer produces the Skipped transition (no feedback append,
no retraining, state unchanged, loop continues) in the COPD loop,
whereas the Arthritis loop re-prompts until a binary answer arrives. -/
theorem c9_amended_transitions :
    (∀ split fit scalerFit (origRows : List Row) (st : LoopState) (inp : ArthInputs),
      (pyLower (pyCapitalize (pyStrip inp.painCat)) == "exit") = true →
      arthritisIter split fit scalerFit origRows st inp = (st, .exited)) ∧
    (∀ split fit scalerFit (origRows : List Row) (st : LoopState) (inp : ArthInputs),
      (pyLower (pyCapitalize (pyStrip inp.painCat)) == "exit") = false →
      (pyLower (pyStrip inp.ageVal) == "exit") = true →
      arthritisIter split fit scalerFit origRows st inp = (st, .exited)) ∧
    (∀ split fit scalerFit (origRows : List Row) (st : LoopState) (inp : CopdInputs),
      (pyLower (pyStrip inp.ageVal) == "exit") = true →
      copdIter split fit scalerFit origRows st inp = (st, .exited)) ∧
    (∀ split fit scalerFit (origRows : List Row) (st : LoopState) (inp : CopdInputs)
        (ageQ oxy : ℚ) (g sm c s f : ℕ) (df : Row) (scaled : List ℚ),
      (pyLower (pyStrip inp.ageVal) == "exit") = false →
      pyFloat? (pyStrip inp.ageVal) = some ageQ →
      resolveOxygen inp.oxygenAnswers = .value oxy →
      copdEncode st.store.encodersFile "Gender" (pyCapitalize inp.genderText) = .ok g →
      copdEncode st.store.encodersFile "Smoking_History"
        (pyCapitalize inp.smokingText) = .ok sm →
      copdEncode st.store.encodersFile "Cough" (pyCapitalize inp.coughText) = .ok c →
      copdEncode st.store.encodersFile "Shortness_of_Breath"
        (pyCapitalize inp.sobText) = .ok s →
      copdEncode st.store.encodersFile "Fatigue" (pyCapitalize inp.fatigueText) = .ok f →
      imputeCols st.store.imputerFile copdNumericCols (copdRow ageQ oxy g sm c s f) =
        .ok df →
      copdScale st df = .ok scaled →
      (pyLower (pyCapitalize (pyStrip inp.diagnosisAnswer)) == "exit") = false →
      (!(pyCapitalize (pyStrip inp.diagnosisAnswer) == "Yes" ||
         pyCapitalize (pyStrip inp.diagnosisAnswer) == "No")) = true →
      copdIter split fit scalerFit origRows st inp = (st, .skipped)) := by
  refine ⟨?_, ?_, ?_, ?_⟩
  · intro split fit scalerFit origRows st inp h
    unfold arthritisIter
    rw [h]
    simp
  · intro split fit scalerFit origRows st inp h1 h2
    unfold arthritisIter
    rw [h1, h2]
    simp
  · intro split fit scalerFit origRows st inp h
    unfold copdIter
    rw [h]
    simp
  · intro split fit scalerFit origRows st inp ageQ oxy g sm c s f df scaled
      hage hagef hoxy hg hsm hc hs hf himp hscale hdx hnb
    unfold copdIter
    simp only [hage, hagef, hoxy, hg, hsm, hc, hs, hf, himp, hscale, hdx, hnb]
    simp

/-- Witness for C9 (amended): the token `EXIT` at the Arthritis pain
prompt and at the COPD age prompt exits; the concrete COPD pass with
valid vitals and the non-binary diagnosis `maybe` skips with the state
unchanged. -/
theorem c9_amended_transitions_witness :
    arthritisIter okSplit okFit idSF9 [] arthState0
      { arthInpYes with painCat := "EXIT" } = (arthState0, .exited) ∧
    copdIter okSplit okFit idSF10 [] copdState0
      { copdInpSkip with ageVal := "Exit" } = (copdState0, .exited) ∧
    copdIter okSplit okFit idSF10 [] copdState0 copdInpSkip = (copdState0, .skipped) := by
  refine ⟨?_, ?_, ?_⟩
  · exact c9_amended_transitions.1 okSplit okFit idSF9 [] arthState0
      { arthInpYes with painCat := "EXIT" } (by decide)
  · exact c9_amended_transitions.2.2.1 okSplit okFit idSF10 [] copdState0
      { copdInpSkip with ageVal := "Exit" } (by decide)
  · exact c9_amended_transitions.2.2.2 okSplit okFit idSF10 [] copdState0 copdInpSkip
      60 95 1 2 1 0 2 (copdRow 60 95 1 2 1 0 2)
      [60, 95, 5, 0, 2, 1, 2, 1, 0, 2]
      (by decide) (by with_unfolding_all rfl) (by with_unfolding_all rfl)
      (by with_unfolding_all rfl) (by with_unfolding_all rfl)
      (by with_unfolding_all rfl) (by with_unfolding_all rfl)
      (by with_unfolding_all rfl) (by with_unfolding_all rfl)
      (by with_unfolding_all rfl) (by decide) (by decide)

/-- C1 (counterexample): the service passes the model's probability and
hard label through without relating them, and the boosted-tree
library's binary `predict` thresholds strictly (`probability > 0.5`).
At the spec's heart example row with a classifier sitting exactly on
the decision boundary, the request succeeds with
`risk_probability = 1/2` and `prediction = 0`, so
`prediction == 1 iff risk_probability >= 0.5` fails (the right side
holds, the left does not). -/
theorem c1_counterexample :
    predictDisease heartLoadBoundary "heart" heartExampleRow = .ok (1/2) 0 (1/2) ∧
    ¬(((0 : ℤ) = 1) ↔ ((1/2 : ℚ) ≥ 1/2)) := by
  constructor
  · with_unfolding_all rfl
  · intro hiff
    exact absurd (hiff.mpr le_rfl) (by norm_num)

/-- C1 (amended): for every successful prediction the returned
`risk_probability` is the model's positive-class probability passed
through unchanged (so it lies in `[0,1]` whenever the model's
probabilities do) and the returned `prediction` is the model's hard
label; provided the classifier's hard label follows its probability
with the library's strict one-half threshold,
`prediction == 1 iff risk_probability > 0.5`.  The `>= 0.5` form of the
claim fails exactly on the boundary, and the service itself enforces no
consistency between the two fields. -/
theorem c1_amended_threshold (mt : String) (a : Artifacts) (row : Row)
    (p : ℚ) (l : ℤ) (c : ℚ)
    (hrange : ∀ v, 0 ≤ a.model.probaFn v ∧ a.model.probaFn v ≤ 1)
    (hthresh : ∀ v, a.model.labelFn v = 1 ↔ 1/2 < a.model.probaFn v)
    (h : makePrediction mt a row = .ok (p, l, c)) :
    0 ≤ p ∧ p ≤ 1 ∧ (l = 1 ↔ 1/2 < p) := by
  obtain ⟨s, hp, hl, _⟩ := makePrediction_ok_inv mt a row p l c h
  subst hp; subst hl
  exact ⟨(hrange s).1, (hrange s).2, hthresh s⟩

/-- Witness for C1 (amended) at the spec's heart example row under a
threshold-consistent classifier with probability 3/4. -/
theorem c1_amended_threshold_witness :
    0 ≤ (3/4 : ℚ) ∧ (3/4 : ℚ) ≤ 1 ∧ ((1 : ℤ) = 1 ↔ (1/2 : ℚ) < 3/4) :=
  c1_amended_threshold "heart" heartArtSharp heartExampleRow (3/4) 1 (3/4)
    (fun _ => by norm_num [heartArtSharp, heartSharpModel])
    (fun _ => by norm_num [heartArtSharp, heartSharpModel])
    (by with_unfolding_all rfl)
